import Mathlib

/-!
Verification of the `typed-state-machine` library (src/typed-state-machine.ts).

The library is a finite-state-machine engine: a `StateMachine` holds a current
state (a tagged value), a configuration table mapping state discriminants to
per-state records (optional `onEnter`/`onExit` callbacks and a map from event
discriminant to a rule function), and a `Set` of subscribed listeners.

Shallow embedding choices:
- States and events are `{ type: string }` tagged values with variant payloads;
  we model them as `Tagged` (a discriminant string plus a `Nat` payload standing
  for the opaque variant-specific fields).
- User-supplied callbacks (`onEnter`, `onExit`, side effects, listeners) are
  opaque; we identify each by a `Nat` id and record every invocation the engine
  performs, in order, as a `TraceEvent` list.  The assignment
  `this._currentState = state` is likewise recorded (`TraceEvent.setState`) so
  that ordering of callback invocations relative to the state replacement is
  visible in the trace.
- A rule function may return a transition descriptor or throw; we model it as
  `Tagged → Tagged → Except String Transition`.
- JS `Set` insertion-order semantics are modelled by a duplicate-free `List Nat`
  of listener ids (`listenersAdd` is `Set.add`, `unsubscribe` is `Set.delete`).
-/

/-- A `{ type: string }` tagged value (`BaseStateOrEvent` in the source); the
`Nat` payload stands for the variant-specific fields. -/
structure Tagged where
  type : String
  payload : Nat
deriving DecidableEq, Repr

/-- The transition descriptor `Transition<State>` from the source:
`{ state: State | null; sideEffect: (() => void) | null }`.  The side-effect
callback is opaque and identified by a `Nat`. -/
structure Transition where
  state : Option Tagged
  sideEffect : Option Nat
deriving DecidableEq, Repr

/-- Embeds `transitionTo(state, sideEffect)` from `StateMachine.transition`:
`(state, sideEffect) => ({ state, sideEffect: sideEffect ?? null })`. -/
def transitionTo (state : Tagged) (sideEffect : Option Nat) : Transition :=
  { state := some state, sideEffect := sideEffect }

/-- Embeds `dontTransition(sideEffect)` from `StateMachine.transition`:
`(sideEffect) => ({ state: null, sideEffect: sideEffect ?? null })`. -/
def dontTransition (sideEffect : Option Nat) : Transition :=
  { state := none, sideEffect := sideEffect }

/-- A user rule function (`OnEventConfiguration`): invoked with the current
state and the event, it either returns a transition descriptor or throws. -/
def RuleFn : Type := Tagged → Tagged → Except String Transition

/-- Embeds `StateConfiguration` from the source: an optional `onEnter` callback, an
optional `onExit` callback (opaque, identified by `Nat` ids) and a record
mapping event discriminants to rule functions (the source calls this last
field `on`; that name is notation in Lean, so it is `onMap` here). -/
structure StateConfiguration where
  onEnter : Option Nat
  onExit : Option Nat
  onMap : List (String × RuleFn)

/-- The machine's instance fields: `_currentState`, `_configuration` (a record
keyed by state discriminant) and `_listeners` (a `Set` of listener callbacks,
modelled as a duplicate-free insertion-ordered list of listener ids). -/
structure StateMachine where
  currentState : Tagged
  configuration : List (String × StateConfiguration)
  listeners : List Nat

/-- One observable action performed by the engine: invoking a registered
`onExit`/`onEnter` callback with its argument, replacing `_currentState`,
notifying a listener with `(previous, current, event)`, or handing a side
effect to `setTimeout`. -/
inductive TraceEvent where
  | callOnExit (cb : Nat) (arg : Tagged)
  | setState (s : Tagged)
  | callOnEnter (cb : Nat) (arg : Tagged)
  | notify (listener : Nat) (previous : Option Tagged) (current : Tagged)
      (event : Option Tagged)
  | schedule (sideEffect : Nat)
deriving DecidableEq, Repr

/-- The result of `StateMachine.transition`: either a normal return with the
updated machine and the trace of engine actions, or an exception propagating to
the caller (`threw` carries the machine as the exception leaves it and the
actions performed before the throw). -/
inductive DispatchResult where
  | ok (machine : StateMachine) (trace : List TraceEvent)
  | threw (machine : StateMachine) (trace : List TraceEvent) (exn : String)

/-- The machine a dispatch leaves behind (for `threw`, the machine state when
the exception escapes). -/
def DispatchResult.machine : DispatchResult → StateMachine
  | .ok m _ => m
  | .threw m _ _ => m

/-- The engine actions a dispatch performed. -/
def DispatchResult.trace : DispatchResult → List TraceEvent
  | .ok _ tr => tr
  | .threw _ tr _ => tr

/-- Embeds `StateMachine.transition(event)` (source lines 162-205), step by step:
look up `_configuration[_currentState.type]` (absent: return), look up
`stateDefinition.on[event.type]` (absent: return), invoke the rule (a throw
propagates with no mutation), then if the descriptor's `state` is non-null
invoke `stateDefinition.onExit?.()` with the pre-transition state, assign
`_currentState = state`, invoke `_configuration[state.type]?.onEnter?.()` with
the new state; finally notify every listener with
`(previousState, state ?? previousState, event)` and schedule the side effect
via `setTimeout` if present.  The notification block here maps over the
dispatch-time membership, which coincides with the source's live-`Set`
iteration exactly when no listener callback unsubscribes another listener
mid-round; the general live-iteration behaviour is modelled by `runListeners`
and `transitionLive` below, of which this is the no-mid-round-unsubscription
special case (`transitionLive_trivial_eq`). -/
def transition (machine : StateMachine) (event : Tagged) : DispatchResult :=
  match machine.configuration.lookup machine.currentState.type with
  | none => .ok machine []
  | some stateDefinition =>
    match stateDefinition.onMap.lookup event.type with
    | none => .ok machine []
    | some onEvent =>
      match onEvent machine.currentState event with
      | .error exn => .threw machine [] exn
      | .ok t =>
        let previousState := machine.currentState
        let effectTrace := match t.sideEffect with
          | some eff => [TraceEvent.schedule eff]
          | none => []
        match t.state with
        | some nextState =>
          let exitTrace := match stateDefinition.onExit with
            | some cb => [TraceEvent.callOnExit cb previousState]
            | none => []
          let enterTrace := match machine.configuration.lookup nextState.type with
            | some nextDefinition =>
              match nextDefinition.onEnter with
              | some cb => [TraceEvent.callOnEnter cb nextState]
              | none => []
            | none => []
          let notifyTrace := machine.listeners.map fun l =>
            TraceEvent.notify l (some previousState) nextState (some event)
          .ok { machine with currentState := nextState }
            (exitTrace ++ TraceEvent.setState nextState :: enterTrace
              ++ notifyTrace ++ effectTrace)
        | none =>
          let notifyTrace := machine.listeners.map fun l =>
            TraceEvent.notify l (some previousState) previousState (some event)
          .ok machine (notifyTrace ++ effectTrace)

/-- The rule selected for a dispatch (source lines 163-173): the rule-table
entry for the current state's discriminant, then that entry's rule for the
event's discriminant; `none` is the early-return no-op path. -/
def ruleFor (machine : StateMachine) (event : Tagged) : Option RuleFn :=
  match machine.configuration.lookup machine.currentState.type with
  | none => none
  | some stateDefinition => stateDefinition.onMap.lookup event.type

/-- Embeds `Set.add` on the listener registry: a listener already present is left in
place (JS `Set` membership is by object identity), otherwise it is appended in
insertion order. -/
def listenersAdd (ls : List Nat) (l : Nat) : List Nat :=
  if l ∈ ls then ls else ls ++ [l]

/-- Embeds `StateMachine.subscribe(listener)` (source lines 207-213):
`this._listeners.add(listener); listener(null, this._currentState, null);`.
Returns the updated machine and the trace of the immediate synthetic
notification. -/
def subscribe (machine : StateMachine) (listener : Nat) :
    StateMachine × List TraceEvent :=
  ({ machine with listeners := listenersAdd machine.listeners listener },
    [TraceEvent.notify listener none machine.currentState none])

/-- The unsubscribe closure returned by `subscribe`:
`() => { this._listeners.delete(listener); }`. -/
def unsubscribe (machine : StateMachine) (listener : Nat) : StateMachine :=
  { machine with listeners := machine.listeners.filter (· != listener) }

/-- The constructor's post-callback phase (source lines 149-159): throw
`"No initial state provided"` when `_currentState` is still undefined, throw
`"No state definition was provided"` when the configuration record has no
keys, then invoke `_configuration[_currentState.type]?.onEnter?.()` with the
initial state.  Takes the initial state and configuration collected by the
configuration callback. -/
def construct (initialState : Option Tagged)
    (configuration : List (String × StateConfiguration)) :
    Except String (StateMachine × List TraceEvent) :=
  match initialState with
  | none => .error "No initial state provided"
  | some s =>
    if configuration.isEmpty then .error "No state definition was provided"
    else
      .ok ({ currentState := s, configuration := configuration, listeners := [] },
        match configuration.lookup s.type with
        | some stateDefinition =>
          match stateDefinition.onEnter with
          | some cb => [TraceEvent.callOnEnter cb s]
          | none => []
        | none => [])

/-! ## Scope guard (source lines 95, 112-147, 219-233)

During construction `_scopeStack` is `["config"]` inside the top-level
configuration callback, `["state", "config"]` inside a per-state definition
callback, and `[]` once the constructor has returned.  Each configuration
entry point begins by checking the top of the stack: `initialState` and
`state` call `_checkConfigScope()`, while `onEnter`, `onExit` and `on` call
`_checkStateScope(name)` with their own name. -/

/-- The error message thrown by `_checkConfigScope` (source lines 219-225).
It is a single hard-coded string: it names `initialState` even when the
entry point that invoked the check was `state`. -/
def configScopeErrorMessage : String :=
  "Call to `initialState` is allowed only from within the config callback, but not inside a state callback"

/-- The error message thrown by `_checkStateScope(name)` (source lines
227-233). -/
def stateScopeErrorMessage (name : String) : String :=
  "Call to `" ++ name ++ "` is allowed only from within a state callback"

/-- Embeds `_checkConfigScope()`: throw unless `_scopeStack[0] === "config"`
(an empty stack reads as `undefined` and also throws). -/
def checkConfigScope (scopeStack : List String) : Except String Unit :=
  if scopeStack.head? = some "config" then Except.ok ()
  else Except.error configScopeErrorMessage

/-- Embeds `_checkStateScope(name)`: throw unless `_scopeStack[0] === "state"`. -/
def checkStateScope (name : String) (scopeStack : List String) :
    Except String Unit :=
  if scopeStack.head? = some "state" then Except.ok ()
  else Except.error (stateScopeErrorMessage name)

/-- The five configuration entry points handed to user callbacks. -/
inductive EntryPoint where
  | initialState
  | state
  | onEnter
  | onExit
  | onRule
deriving DecidableEq, Repr

/-- The source-level name of each entry point (`onRule` is the entry point the
source calls `on`). -/
def EntryPoint.sourceName : EntryPoint → String
  | .initialState => "initialState"
  | .state => "state"
  | .onEnter => "onEnter"
  | .onExit => "onExit"
  | .onRule => "on"

/-- The scope tag each entry point requires on top of `_scopeStack`:
`initialState`/`state` require `"config"`, the rest require `"state"`. -/
def requiredScope : EntryPoint → String
  | .initialState => "config"
  | .state => "config"
  | _ => "state"

/-- The scope check each entry point performs on invocation (source lines
114-140): `initialState` and `state` call `_checkConfigScope()`; `onEnter`,
`onExit` and `on` call `_checkStateScope` with their own name. -/
def entryPointScopeCheck : EntryPoint → List String → Except String Unit
  | .initialState, st => checkConfigScope st
  | .state, st => checkConfigScope st
  | .onEnter, st => checkStateScope "onEnter" st
  | .onExit, st => checkStateScope "onExit" st
  | .onRule, st => checkStateScope "on" st

/-- The message actually thrown when an entry point's scope check fails. -/
def scopeErrorMessageOf : EntryPoint → String
  | .initialState => configScopeErrorMessage
  | .state => configScopeErrorMessage
  | .onEnter => stateScopeErrorMessage "onEnter"
  | .onExit => stateScopeErrorMessage "onExit"
  | .onRule => stateScopeErrorMessage "on"

/-! ## The notification loop under concurrent unsubscription

`transition` notifies listeners with `for (const listener of this._listeners)`
over the live `Set`.  Per ECMAScript `Set` iteration semantics, an entry
deleted during iteration *before* the iterator reaches it is not visited,
while deleting the current or an already-visited entry does not affect the
iteration.  A listener callback may call unsubscribe functions, which delete
members of the very set being iterated.  `runListeners beh registry deleted`
models one notification round: `registry` is the insertion-ordered member
list still ahead of the iterator, `deleted` accumulates the ids deleted so
far, and `beh l` gives the ids listener `l` unsubscribes when invoked.  It
returns the listeners notified, in order, together with the final deleted
set. -/
def runListeners (beh : Nat → List Nat) :
    List Nat → List Nat → List Nat × List Nat
  | [], deleted => ([], deleted)
  | l :: rest, deleted =>
    if l ∈ deleted then runListeners beh rest deleted
    else
      let result := runListeners beh rest (deleted ++ beh l)
      (l :: result.1, result.2)

/-- Refinement of `transition` that models the notification loop's live-`Set`
iteration (source lines 196-198) faithfully under mid-round unsubscription:
`beh l` is the set of listener ids that listener `l`'s callback unsubscribes
when invoked.  The listeners notified are exactly the ones `runListeners`
visits, and the resulting machine's registry omits every id deleted during
the round.  `transition` is the special case in which no listener
unsubscribes anyone mid-round (`transitionLive_trivial_eq`). -/
def transitionLive (beh : Nat → List Nat) (machine : StateMachine)
    (event : Tagged) : DispatchResult :=
  match machine.configuration.lookup machine.currentState.type with
  | none => .ok machine []
  | some stateDefinition =>
    match stateDefinition.onMap.lookup event.type with
    | none => .ok machine []
    | some onEvent =>
      match onEvent machine.currentState event with
      | .error exn => .threw machine [] exn
      | .ok t =>
        let previousState := machine.currentState
        let effectTrace := match t.sideEffect with
          | some eff => [TraceEvent.schedule eff]
          | none => []
        let round := runListeners beh machine.listeners []
        let newListeners := machine.listeners.filter fun x =>
          !(round.2.contains x)
        match t.state with
        | some nextState =>
          let exitTrace := match stateDefinition.onExit with
            | some cb => [TraceEvent.callOnExit cb previousState]
            | none => []
          let enterTrace := match machine.configuration.lookup nextState.type with
            | some nextDefinition =>
              match nextDefinition.onEnter with
              | some cb => [TraceEvent.callOnEnter cb nextState]
              | none => []
            | none => []
          let notifyTrace := round.1.map fun l =>
            TraceEvent.notify l (some previousState) nextState (some event)
          .ok { currentState := nextState,
                configuration := machine.configuration,
                listeners := newListeners }
            (exitTrace ++ TraceEvent.setState nextState :: enterTrace
              ++ notifyTrace ++ effectTrace)
        | none =>
          let notifyTrace := round.1.map fun l =>
            TraceEvent.notify l (some previousState) previousState (some event)
          .ok { machine with listeners := newListeners }
            (notifyTrace ++ effectTrace)

/-! ## Concrete sample machines used as witnesses -/

/-- The `locked` state of the README's turnstile example. -/
def lockedState : Tagged := { type := "locked", payload := 0 }

/-- The `unlocked` state of the README's turnstile example. -/
def unlockedState : Tagged := { type := "unlocked", payload := 0 }

/-- An `insertCoin` event with value 50. -/
def coinEvent : Tagged := { type := "insertCoin", payload := 50 }

/-- An event discriminant for which no rule is registered anywhere. -/
def kickEvent : Tagged := { type := "kick", payload := 0 }

/-- The rule registered for `("locked", "insertCoin")`: transition to
`unlocked` with a side effect (callback id 7). -/
def lockedCoinRule : RuleFn := fun _ _ =>
  Except.ok (transitionTo unlockedState (some 7))

/-- A rule that throws (models a user rule function raising an exception). -/
def throwingRule : RuleFn := fun _ _ => Except.error "boom"

/-- A sample configuration: state `locked` with `onEnter` id 1, `onExit` id 2,
an `insertCoin` rule and a throwing `smash` rule; state `unlocked` with
`onEnter` id 3 and no rules. -/
def sampleConfig : List (String × StateConfiguration) :=
  [("locked",
    { onEnter := some 1, onExit := some 2,
      onMap := [("insertCoin", lockedCoinRule), ("smash", throwingRule)] }),
   ("unlocked", { onEnter := some 3, onExit := none, onMap := [] })]

/-- A sample machine in state `locked` with a single subscribed listener 0. -/
def sampleMachine : StateMachine :=
  { currentState := lockedState, configuration := sampleConfig, listeners := [0] }

/-- The sample machine with no listeners yet. -/
def sampleMachineBare : StateMachine :=
  { currentState := lockedState, configuration := sampleConfig, listeners := [] }

/-- A `smash` event, handled in `locked` by the throwing rule. -/
def smashEvent : Tagged := { type := "smash", payload := 0 }

/-- A `broken` state whose discriminant has no registered state definition. -/
def brokenState : Tagged := { type := "broken", payload := 0 }

/-- A rule transitioning to the unregistered `broken` state. -/
def breakRule : RuleFn := fun _ _ => Except.ok (transitionTo brokenState none)

/-- A `break` event, handled in `locked` by `breakRule`. -/
def breakEvent : Tagged := { type := "break", payload := 0 }

/-- A configuration defining only `locked`, whose single rule moves to the
unregistered `broken` state. -/
def fragileConfig : List (String × StateConfiguration) :=
  [("locked",
    { onEnter := some 1, onExit := some 2, onMap := [("break", breakRule)] })]

/-- A machine over `fragileConfig` in state `locked` with listener 0. -/
def fragileMachine : StateMachine :=
  { currentState := lockedState, configuration := fragileConfig,
    listeners := [0] }

/-- Whether a trace event is a notification delivered to listener `l`. -/
def isNotifyTo (l : Nat) : TraceEvent → Bool
  | .notify l2 _ _ _ => l2 == l
  | _ => false

/-- Whether an error message names a given entry point, i.e. begins with
"Call to \x60name\x60" the way the source's scope-error messages are phrased. -/
def messageNamesEntryPoint (message : String) (name : String) : Bool :=
  List.isPrefixOf ("Call to `" ++ name ++ "`").data message.data

/-! ## Helper lemmas: the two normal-return shapes of `transition` -/

/-- Unfolding lemma: a dispatch whose rule returns a descriptor with non-null
`state` performs the exit/assign/enter sequence, notifies every listener with
`(previous, nextState, event)` and schedules the side effect if any. -/
theorem transition_eq_of_rule_some
    (machine : StateMachine) (event : Tagged) (sd : StateConfiguration)
    (rule : RuleFn) (t : Transition) (nextState : Tagged)
    (h1 : machine.configuration.lookup machine.currentState.type = some sd)
    (h2 : sd.onMap.lookup event.type = some rule)
    (h3 : rule machine.currentState event = Except.ok t)
    (h4 : t.state = some nextState) :
    transition machine event =
      DispatchResult.ok { machine with currentState := nextState }
        ((match sd.onExit with
          | some cb => [TraceEvent.callOnExit cb machine.currentState]
          | none => [])
         ++ TraceEvent.setState nextState
         :: (match machine.configuration.lookup nextState.type with
             | some nextDefinition =>
               match nextDefinition.onEnter with
               | some cb => [TraceEvent.callOnEnter cb nextState]
               | none => []
             | none => [])
         ++ machine.listeners.map (fun l =>
              TraceEvent.notify l (some machine.currentState) nextState
                (some event))
         ++ (match t.sideEffect with
             | some eff => [TraceEvent.schedule eff]
             | none => [])) := by
  unfold transition
  simp only [h1, h2, h3]
  obtain ⟨st, se⟩ := t
  simp only [Transition.state] at h4
  subst h4
  rfl

/-- Unfolding lemma: a dispatch whose rule returns a descriptor with null
`state` leaves the machine untouched, notifies every listener with
`(previous, previous, event)` and schedules the side effect if any. -/
theorem transition_eq_of_rule_none
    (machine : StateMachine) (event : Tagged) (sd : StateConfiguration)
    (rule : RuleFn) (t : Transition)
    (h1 : machine.configuration.lookup machine.currentState.type = some sd)
    (h2 : sd.onMap.lookup event.type = some rule)
    (h3 : rule machine.currentState event = Except.ok t)
    (h4 : t.state = none) :
    transition machine event =
      DispatchResult.ok machine
        (machine.listeners.map (fun l =>
            TraceEvent.notify l (some machine.currentState)
              machine.currentState (some event))
         ++ (match t.sideEffect with
             | some eff => [TraceEvent.schedule eff]
             | none => [])) := by
  unfold transition
  simp only [h1, h2, h3]
  obtain ⟨st, se⟩ := t
  simp only [Transition.state] at h4
  subst h4
  rfl

/-- C1: for every dispatch whose rule returns a descriptor with non-null
`nextState`, the machine invokes the exiting state's `onExit` callback (if
registered) with the pre-transition state strictly before `currentState` is
replaced (`TraceEvent.setState`), then sets `currentState` to `nextState`,
then invokes the new state's `onEnter` callback (if registered) with the new
state; every observer notification for the dispatch carries
`previous = ` the pre-transition state and `current = ` the post-transition
state.  The trace equation exhibits the exact order of these engine actions. -/
theorem transition_applies_descriptor
    (machine : StateMachine) (event : Tagged) (sd : StateConfiguration)
    (rule : RuleFn) (t : Transition) (nextState : Tagged)
    (h1 : machine.configuration.lookup machine.currentState.type = some sd)
    (h2 : sd.onMap.lookup event.type = some rule)
    (h3 : rule machine.currentState event = Except.ok t)
    (h4 : t.state = some nextState) :
    transition machine event =
      DispatchResult.ok { machine with currentState := nextState }
        ((match sd.onExit with
          | some cb => [TraceEvent.callOnExit cb machine.currentState]
          | none => [])
         ++ TraceEvent.setState nextState
         :: (match machine.configuration.lookup nextState.type with
             | some nextDefinition =>
               match nextDefinition.onEnter with
               | some cb => [TraceEvent.callOnEnter cb nextState]
               | none => []
             | none => [])
         ++ machine.listeners.map (fun l =>
              TraceEvent.notify l (some machine.currentState) nextState
                (some event))
         ++ (match t.sideEffect with
             | some eff => [TraceEvent.schedule eff]
             | none => [])) :=
  transition_eq_of_rule_some machine event sd rule t nextState h1 h2 h3 h4

/-- Witness for C1: the turnstile machine in `locked` dispatching `insertCoin`
runs `onExit` (id 2) on `locked`, replaces the state with `unlocked`, runs
`onEnter` (id 3) on `unlocked`, notifies listener 0 with
`(locked, unlocked, insertCoin)` and schedules side effect 7. -/
theorem transition_applies_descriptor_witness :
    transition sampleMachine coinEvent =
      DispatchResult.ok
        { currentState := unlockedState, configuration := sampleConfig,
          listeners := [0] }
        [TraceEvent.callOnExit 2 lockedState, TraceEvent.setState unlockedState,
         TraceEvent.callOnEnter 3 unlockedState,
         TraceEvent.notify 0 (some lockedState) unlockedState (some coinEvent),
         TraceEvent.schedule 7] :=
  transition_applies_descriptor sampleMachine coinEvent
    { onEnter := some 1, onExit := some 2,
      onMap := [("insertCoin", lockedCoinRule), ("smash", throwingRule)] }
    lockedCoinRule (transitionTo unlockedState (some 7)) unlockedState
    rfl rfl rfl rfl

/-- Helper: a notification block delivers to listener `l` exactly as many
notifications as `l` occurs in the list of listeners being notified. -/
theorem countP_notify_map_count (ls : List Nat) (l : Nat)
    (prev : Option Tagged) (cur : Tagged) (ev : Option Tagged) :
    (ls.map (fun x => TraceEvent.notify x prev cur ev)).countP (isNotifyTo l)
      = ls.count l := by
  rw [List.countP_map]
  have hp : ((isNotifyTo l) ∘ fun x => TraceEvent.notify x prev cur ev)
      = (· == l) := by
    funext x
    simp [isNotifyTo, Function.comp]
  rw [hp, ← List.count_eq_countP]

/-- Helper: a notification block over a duplicate-free registry delivers
exactly one notification to each member. -/
theorem countP_notify_map_eq_one (ls : List Nat) (l : Nat)
    (hnd : ls.Nodup) (hl : l ∈ ls) (prev : Option Tagged) (cur : Tagged)
    (ev : Option Tagged) :
    (ls.map (fun x => TraceEvent.notify x prev cur ev)).countP (isNotifyTo l)
      = 1 := by
  rw [countP_notify_map_count]
  exact List.count_eq_one_of_mem hnd hl

/-- C2 counterexample: listener 0 is a registry member of `sampleMachine`, yet
the dispatch of `kick` (an event with no rule in state `locked`) returns from
the early no-rule path before the notification loop, so listener 0 receives
zero notifications for that dispatch, not one. -/
theorem unmatched_dispatch_notifies_nobody :
    (0 : Nat) ∈ sampleMachine.listeners ∧
    (transition sampleMachine kickEvent).trace.countP (isNotifyTo 0) = 0 := by
  constructor
  · show (0 : Nat) ∈ [0]
    exact List.mem_singleton.mpr rfl
  · rfl

/-- Helper: the listener just added by `Set.add` is a member. -/
theorem listenersAdd_mem (ls : List Nat) (l : Nat) : l ∈ listenersAdd ls l := by
  unfold listenersAdd
  split
  · assumption
  · exact List.mem_append_right _ (List.mem_singleton.mpr rfl)

/-- Helper: `Set.add` of an existing member leaves the registry unchanged. -/
theorem listenersAdd_of_mem (ls : List Nat) (l : Nat) (h : l ∈ ls) :
    listenersAdd ls l = ls := by
  unfold listenersAdd
  exact if_pos h

/-- Helper: `Set.add` is a no-op when the element is already a member; in
particular adding the same listener twice equals adding it once. -/
theorem listenersAdd_absorb (ls : List Nat) (l : Nat) :
    listenersAdd (listenersAdd ls l) l = listenersAdd ls l :=
  listenersAdd_of_mem _ _ (listenersAdd_mem ls l)

/-- C3 counterexample: subscribing the same listener object (id 0) twice to
the bare sample machine yields a single registry entry, a subsequent matched
dispatch notifies it once (not twice), and a single unsubscribe call removes
it completely. -/
theorem duplicate_subscribe_counterexample :
    ((subscribe (subscribe sampleMachineBare 0).1 0).1).listeners = [0] ∧
    (transition ((subscribe (subscribe sampleMachineBare 0).1 0).1)
      coinEvent).trace.countP (isNotifyTo 0) = 1 ∧
    (unsubscribe ((subscribe (subscribe sampleMachineBare 0).1 0).1)
      0).listeners = [] :=
  ⟨rfl, rfl, rfl⟩

/-- C3 amended: subscribing the same listener object twice produces a single
registration, not two — the registry is a `Set`, so the second `subscribe`
leaves the membership unchanged (while still firing its immediate synthetic
notification), and one `unsubscribe` call removes the listener entirely. -/
theorem duplicate_subscribe_single_registration
    (machine : StateMachine) (l : Nat) :
    ((subscribe (subscribe machine l).1 l).1).listeners
        = ((subscribe machine l).1).listeners ∧
    (subscribe (subscribe machine l).1 l).2
        = [TraceEvent.notify l none machine.currentState none] ∧
    l ∉ (unsubscribe ((subscribe (subscribe machine l).1 l).1) l).listeners := by
  refine ⟨?_, rfl, ?_⟩
  · show listenersAdd (listenersAdd machine.listeners l) l
        = listenersAdd machine.listeners l
    rw [listenersAdd_absorb]
  · intro hcontra
    have := List.mem_filter.mp hcontra
    simp at this

/-- Helper: every listener visited by a notification round was a registry
member when the round began. -/
theorem runListeners_visited_mem (beh : Nat → List Nat) :
    ∀ (registry deleted : List Nat) (x : Nat),
      x ∈ (runListeners beh registry deleted).1 → x ∈ registry := by
  intro registry
  induction registry with
  | nil =>
    intro deleted x hx
    simp [runListeners] at hx
  | cons y rest ih =>
    intro deleted x hx
    by_cases hy : y ∈ deleted
    · simp only [runListeners, if_pos hy] at hx
      exact List.mem_cons_of_mem y (ih deleted x hx)
    · simp only [runListeners, if_neg hy] at hx
      rcases List.mem_cons.mp hx with h | h
      · exact h ▸ List.mem_cons_self y rest
      · exact List.mem_cons_of_mem y (ih (deleted ++ beh y) x h)

/-- C4 counterexample: listeners 0 and 1 are both registry members when the
round begins, listener 0 unsubscribes listener 1 when invoked, and — per the
live-`Set` iteration the source loop performs — listener 1 is then *not*
notified in that same round: the removal takes effect immediately, not only
for subsequent dispatches. -/
theorem unsubscribe_during_round_counterexample :
    runListeners (fun x => if x = 0 then [1] else []) [0, 1] [] = ([0], [1]) ∧
    (1 : Nat) ∈ [0, 1] ∧
    (1 : Nat) ∉ (runListeners (fun x => if x = 0 then [1] else []) [0, 1] []).1 :=
  ⟨rfl, by decide, by decide⟩

/-- Helper: the core counting fact about a live notification round — a
registry member that no other listener deletes, and that is not already
deleted when the round reaches the remaining registry, is visited exactly
once. -/
theorem runListeners_count_eq_one
    (beh : Nat → List Nat) (registry : List Nat) (l : Nat)
    (hbeh : ∀ y, y ≠ l → l ∉ beh y) :
    ∀ deleted : List Nat, registry.Nodup → l ∈ registry → l ∉ deleted →
      ((runListeners beh registry deleted).1).count l = 1 := by
  induction registry with
  | nil =>
    intro deleted _ hmem _
    cases hmem
  | cons y rest ih =>
    intro deleted hnd hmem hdel
    by_cases hy : y ∈ deleted
    · have hyl : y ≠ l := fun h => hdel (h ▸ hy)
      have hlrest : l ∈ rest := by
        rcases List.mem_cons.mp hmem with h | h
        · exact absurd h.symm hyl
        · exact h
      simp only [runListeners, if_pos hy]
      exact ih deleted hnd.of_cons hlrest hdel
    · simp only [runListeners, if_neg hy]
      by_cases hyl : y = l
      · subst hyl
        have hnotin : y ∉ (runListeners beh rest (deleted ++ beh y)).1 := by
          intro hcon
          exact (List.nodup_cons.mp hnd).1
            (runListeners_visited_mem beh rest (deleted ++ beh y) y hcon)
        simp [List.count_cons_self, List.count_eq_zero.mpr hnotin]
      · have hlrest : l ∈ rest := by
          rcases List.mem_cons.mp hmem with h | h
          · exact absurd h.symm hyl
          · exact h
        have hdel2 : l ∉ deleted ++ beh y := by
          intro hcon
          rcases List.mem_append.mp hcon with h | h
          · exact hdel h
          · exact hbeh y hyl h
        rw [List.count_cons_of_ne (Ne.symm hyl)]
        exact ih (deleted ++ beh y) hnd.of_cons hlrest hdel2

/-- C4 amended: an unsubscribe performed during a notification round affects
the round in progress only when it removes a listener that has not yet been
reached.  A registry member that no *other* listener unsubscribes — in
particular one that merely unsubscribes itself — is still notified exactly
once in the round that is in progress, and its removal takes effect only
afterwards; a not-yet-notified listener removed by an earlier-notified one is
skipped for the rest of the round. -/
theorem unsubscribed_by_self_only_still_notified
    (beh : Nat → List Nat) (registry : List Nat) (l : Nat)
    (hbeh : ∀ y, y ≠ l → l ∉ beh y) :
    ∀ deleted : List Nat, registry.Nodup → l ∈ registry → l ∉ deleted →
      ((runListeners beh registry deleted).1).count l = 1 :=
  runListeners_count_eq_one beh registry l hbeh

/-- Witness for C4 amended: with every listener unsubscribing itself during
notification, listener 5 of the round over `[3, 5]` is still notified exactly
once in that round. -/
theorem unsubscribed_by_self_only_still_notified_witness :
    ((runListeners (fun x => [x]) [3, 5] []).1).count 5 = 1 :=
  unsubscribed_by_self_only_still_notified (fun x => [x]) [3, 5] 5
    (fun y hy h => hy (List.mem_singleton.mp h).symm) []
    (by decide) (by decide) (by decide)

/-- Helper: when no listener unsubscribes anyone, a notification round visits
every registry member in order and deletes nothing. -/
theorem runListeners_trivial (ls : List Nat) :
    runListeners (fun _ => []) ls [] = (ls, []) := by
  induction ls with
  | nil => rfl
  | cons y rest ih =>
    simp only [runListeners, List.nil_append, ih]
    rw [if_neg (List.not_mem_nil y)]

/-- Helper: `transition` is precisely `transitionLive` with no mid-round
unsubscription, justifying the snapshot notification block of `transition`
for every dispatch in which no listener callback unsubscribes a listener. -/
theorem transitionLive_trivial_eq (machine : StateMachine) (event : Tagged) :
    transitionLive (fun _ => []) machine event = transition machine event := by
  unfold transition transitionLive
  cases h1 : machine.configuration.lookup machine.currentState.type with
  | none => rfl
  | some sd =>
    cases h2 : sd.onMap.lookup event.type with
    | none => simp only [h2]
    | some rule =>
      cases h3 : rule machine.currentState event with
      | error exn => simp only [h2, h3]
      | ok t =>
        obtain ⟨st, se⟩ := t
        cases st <;>
          simp [h2, h3, runListeners_trivial]

/-- C2 amended: a listener that is a registry member at dispatch time is
notified exactly once per dispatch whose rule lookup succeeds and whose rule
returns normally, *provided no other listener unsubscribes it during that
dispatch's notification round* — the loop iterates the live `Set`, so a
member deleted mid-round by an earlier-notified listener is skipped, while
self-unsubscription does not affect delivery; dispatches for which the rule
table has no entry for the current state or no rule for the event return
before the notification loop and notify no listener at all. -/
theorem listener_notified_once_per_matched_dispatch_live
    (beh : Nat → List Nat) (machine : StateMachine) (event : Tagged)
    (sd : StateConfiguration) (rule : RuleFn) (t : Transition) (l : Nat)
    (hnd : machine.listeners.Nodup) (hl : l ∈ machine.listeners)
    (hbeh : ∀ y, y ≠ l → l ∉ beh y)
    (h1 : machine.configuration.lookup machine.currentState.type = some sd)
    (h2 : sd.onMap.lookup event.type = some rule)
    (h3 : rule machine.currentState event = Except.ok t) :
    (transitionLive beh machine event).trace.countP (isNotifyTo l) = 1 := by
  have hround : ((runListeners beh machine.listeners []).1).count l = 1 :=
    runListeners_count_eq_one beh machine.listeners l hbeh [] hnd hl
      (List.not_mem_nil l)
  have heff : ∀ se : Option Nat,
      (match se with
        | some eff => [TraceEvent.schedule eff]
        | none => ([] : List TraceEvent)).countP (isNotifyTo l) = 0 := by
    intro se
    cases se <;> simp [isNotifyTo]
  unfold transitionLive
  simp only [h1, h2, h3]
  obtain ⟨st, se⟩ := t
  cases st with
  | none =>
    simp only [DispatchResult.trace, List.countP_append,
      countP_notify_map_count, hround, heff]
  | some nextState =>
    have hexit : (match sd.onExit with
        | some cb => [TraceEvent.callOnExit cb machine.currentState]
        | none => ([] : List TraceEvent)).countP (isNotifyTo l) = 0 := by
      cases sd.onExit <;> simp [isNotifyTo]
    have henter : (match machine.configuration.lookup nextState.type with
        | some nextDefinition =>
          match nextDefinition.onEnter with
          | some cb => [TraceEvent.callOnEnter cb nextState]
          | none => []
        | none => ([] : List TraceEvent)).countP (isNotifyTo l) = 0 := by
      cases machine.configuration.lookup nextState.type with
      | none => simp
      | some nd => cases hne : nd.onEnter <;> simp [hne, isNotifyTo]
    simp only [DispatchResult.trace, List.countP_append, List.countP_cons,
      hexit, henter, heff, countP_notify_map_count, hround, isNotifyTo]
    rfl

/-- Witness for C2 amended: with every listener unsubscribing itself during
notification (so that no listener unsubscribes another), listener 0 of
`sampleMachine` is still notified exactly once by the matched `insertCoin`
dispatch under live-`Set` iteration. -/
theorem listener_notified_once_live_witness :
    (transitionLive (fun x => [x]) sampleMachine coinEvent).trace.countP
      (isNotifyTo 0) = 1 :=
  listener_notified_once_per_matched_dispatch_live (fun x => [x])
    sampleMachine coinEvent
    { onEnter := some 1, onExit := some 2,
      onMap := [("insertCoin", lockedCoinRule), ("smash", throwingRule)] }
    lockedCoinRule (transitionTo unlockedState (some 7)) 0
    (by decide) (List.mem_singleton.mpr rfl)
    (fun y hy h => hy (List.mem_singleton.mp h).symm)
    rfl rfl rfl

set_option maxRecDepth 8000 in
/-- C5 counterexample: invoking the `state` entry point while its required
`"config"` tag is not on top of the scope stack (here: an empty stack, i.e.
after construction has finished) does throw, but the thrown message is
`_checkConfigScope`'s single hard-coded string, which names `initialState`
rather than the violated entry point `state`. -/
theorem state_misuse_message_counterexample :
    entryPointScopeCheck EntryPoint.state [] =
      Except.error configScopeErrorMessage ∧
    messageNamesEntryPoint configScopeErrorMessage
      (EntryPoint.state).sourceName = false :=
  ⟨rfl, by decide⟩

set_option maxRecDepth 8000 in
/-- C5 amended: whenever a configuration entry point is invoked while the
scope tag it requires is not on top of the scope stack (including the empty
stack left after construction finishes), the call fails with a ScopeError;
for `initialState`, `onEnter`, `onExit` and `on` the message names the
violated entry point, but a misused `state` fails with the config-scope
message, which names `initialState` instead (behaviour pinned by the
repository's own test for `state` misuse). -/
theorem scope_guard_rejects_out_of_scope_calls
    (ep : EntryPoint) (scopeStack : List String)
    (h : scopeStack.head? ≠ some (requiredScope ep)) :
    entryPointScopeCheck ep scopeStack =
      Except.error (scopeErrorMessageOf ep) ∧
    (ep ≠ EntryPoint.state →
      messageNamesEntryPoint (scopeErrorMessageOf ep) ep.sourceName = true) := by
  cases ep
  case initialState => exact ⟨if_neg h, fun _ => by decide⟩
  case state => exact ⟨if_neg h, fun hcon => absurd rfl hcon⟩
  case onEnter => exact ⟨if_neg h, fun _ => by decide⟩
  case onExit => exact ⟨if_neg h, fun _ => by decide⟩
  case onRule => exact ⟨if_neg h, fun _ => by decide⟩

/-- Witness for C5 amended: a captured `onEnter` invoked after construction
(empty scope stack) fails with a ScopeError naming `onEnter`. -/
theorem scope_guard_rejects_witness :
    entryPointScopeCheck EntryPoint.onEnter [] =
      Except.error (scopeErrorMessageOf EntryPoint.onEnter) ∧
    (EntryPoint.onEnter ≠ EntryPoint.state →
      messageNamesEntryPoint (scopeErrorMessageOf EntryPoint.onEnter)
        (EntryPoint.onEnter).sourceName = true) :=
  scope_guard_rejects_out_of_scope_calls EntryPoint.onEnter [] (by decide)

/-- C6: when the invoked rule function throws, the exception propagates to the
caller of `transition` and the machine is left exactly as it was before the
dispatch: no `onExit`/`onEnter` fires, `currentState` is not replaced, and no
observer is notified (the trace of engine actions is empty). -/
theorem rule_throw_leaves_machine_unchanged
    (machine : StateMachine) (event : Tagged) (sd : StateConfiguration)
    (rule : RuleFn) (exn : String)
    (h1 : machine.configuration.lookup machine.currentState.type = some sd)
    (h2 : sd.onMap.lookup event.type = some rule)
    (h3 : rule machine.currentState event = Except.error exn) :
    transition machine event = DispatchResult.threw machine [] exn := by
  unfold transition
  simp only [h1, h2, h3]

/-- Witness for C6: the throwing `smash` rule propagates `"boom"` and leaves
`sampleMachine` untouched with an empty action trace. -/
theorem rule_throw_witness :
    transition sampleMachine smashEvent =
      DispatchResult.threw sampleMachine [] "boom" :=
  rule_throw_leaves_machine_unchanged sampleMachine smashEvent
    { onEnter := some 1, onExit := some 2,
      onMap := [("insertCoin", lockedCoinRule), ("smash", throwingRule)] }
    throwingRule "boom" rfl rfl rfl

/-- C7: a dispatch for which the rule table has no entry for the current
state's discriminant, or whose entry has no rule for the event's discriminant,
is a complete no-op: `transition` returns the machine unchanged (same current
state and same listener registry) with an empty action trace — no `onEnter`,
no `onExit`, no notification. -/
theorem unmatched_dispatch_is_noop
    (machine : StateMachine) (event : Tagged)
    (h : ruleFor machine event = none) :
    transition machine event = DispatchResult.ok machine [] := by
  unfold ruleFor at h
  unfold transition
  cases hc : machine.configuration.lookup machine.currentState.type with
  | none => simp only [hc]
  | some sd =>
    simp only [hc] at h ⊢
    simp only [h]

/-- Witness for C7: dispatching the unhandled `kick` event in `locked` leaves
`sampleMachine` untouched with an empty trace. -/
theorem unmatched_dispatch_is_noop_witness :
    transition sampleMachine kickEvent = DispatchResult.ok sampleMachine [] :=
  unmatched_dispatch_is_noop sampleMachine kickEvent rfl

/-- C8: `subscribe(listener)` adds the listener to the registry and, before
returning, synchronously invokes it exactly once with `previous = null`,
`current = ` the machine's current state and `event = null` (the trace of the
call is exactly that one notification). -/
theorem subscribe_adds_and_notifies (machine : StateMachine) (l : Nat) :
    l ∈ (subscribe machine l).1.listeners ∧
    (subscribe machine l).2 =
      [TraceEvent.notify l none machine.currentState none] :=
  ⟨listenersAdd_mem machine.listeners l, rfl⟩

/-- C9: for every construction that passes validation (an initial state was
recorded and the configuration is non-empty), if an `onEnter` callback is
registered for the initial state's discriminant it is invoked exactly once,
with the initial state, as the last step of the constructor — i.e. after both
validation checks and before any `transition` call can exist. -/
theorem construct_fires_initial_onEnter
    (s : Tagged) (cfg : List (String × StateConfiguration))
    (sd : StateConfiguration) (cb : Nat)
    (hne : cfg.isEmpty = false)
    (h1 : cfg.lookup s.type = some sd)
    (h2 : sd.onEnter = some cb) :
    construct (some s) cfg =
      Except.ok
        ({ currentState := s, configuration := cfg, listeners := [] },
          [TraceEvent.callOnEnter cb s]) := by
  simp [construct, hne, h1, h2]

/-- Witness for C9: constructing the sample machine in `locked` fires the
`locked` `onEnter` (id 1) exactly once with the initial state. -/
theorem construct_fires_initial_onEnter_witness :
    construct (some lockedState) sampleConfig =
      Except.ok
        ({ currentState := lockedState, configuration := sampleConfig,
           listeners := [] },
          [TraceEvent.callOnEnter 1 lockedState]) :=
  construct_fires_initial_onEnter lockedState sampleConfig
    { onEnter := some 1, onExit := some 2,
      onMap := [("insertCoin", lockedCoinRule), ("smash", throwingRule)] }
    1 rfl rfl rfl

/-- C10: unregistered discriminants degrade to silently skipped `onEnter`
invocations.  (a) A rule returning `transitionTo(s)` with no state definition
for `s.type` still completes the dispatch: `currentState` becomes `s`, the
`onEnter` invocation is skipped (no `callOnEnter` in the trace), and observers
are still notified.  (b) Construction succeeds with an empty construction
trace when the initial state's discriminant has no state definition, provided
the configuration is non-empty. -/
theorem unregistered_discriminant_degrades_gracefully :
    (∀ (machine : StateMachine) (event : Tagged) (sd : StateConfiguration)
        (rule : RuleFn) (t : Transition) (nextState : Tagged),
      machine.configuration.lookup machine.currentState.type = some sd →
      sd.onMap.lookup event.type = some rule →
      rule machine.currentState event = Except.ok t →
      t.state = some nextState →
      machine.configuration.lookup nextState.type = none →
      transition machine event =
        DispatchResult.ok { machine with currentState := nextState }
          ((match sd.onExit with
            | some cb => [TraceEvent.callOnExit cb machine.currentState]
            | none => [])
           ++ TraceEvent.setState nextState
           :: machine.listeners.map (fun l =>
                TraceEvent.notify l (some machine.currentState) nextState
                  (some event))
           ++ (match t.sideEffect with
               | some eff => [TraceEvent.schedule eff]
               | none => []))) ∧
    (∀ (s : Tagged) (cfg : List (String × StateConfiguration)),
      cfg.isEmpty = false → cfg.lookup s.type = none →
      construct (some s) cfg =
        Except.ok
          ({ currentState := s, configuration := cfg, listeners := [] },
            [])) := by
  constructor
  · intro machine event sd rule t nextState h1 h2 h3 h4 h5
    rw [transition_eq_of_rule_some machine event sd rule t nextState h1 h2 h3 h4]
    simp [h5]
  · intro s cfg hne h0
    simp [construct, hne, h0]

/-- Witness for C10: the fragile machine's `break` rule moves to the
unregistered `broken` state — dispatch completes, no `callOnEnter` appears,
listener 0 is still notified; and constructing with initial state `broken`
succeeds with an empty construction trace. -/
theorem unregistered_discriminant_witness :
    transition fragileMachine breakEvent =
      DispatchResult.ok
        { currentState := brokenState, configuration := fragileConfig,
          listeners := [0] }
        [TraceEvent.callOnExit 2 lockedState, TraceEvent.setState brokenState,
         TraceEvent.notify 0 (some lockedState) brokenState (some breakEvent)] ∧
    construct (some brokenState) fragileConfig =
      Except.ok
        ({ currentState := brokenState, configuration := fragileConfig,
           listeners := [] }, []) :=
  ⟨unregistered_discriminant_degrades_gracefully.1 fragileMachine breakEvent
      { onEnter := some 1, onExit := some 2, onMap := [("break", breakRule)] }
      breakRule (transitionTo brokenState none) brokenState rfl rfl rfl rfl rfl,
    unregistered_discriminant_degrades_gracefully.2 brokenState fragileConfig
      rfl rfl⟩
